import Mathlib

/-!
Verification development for the subscription QA harness's
expectation-calculation and state-reconciliation engine.

Shallow embedding of:
  - test_engine/subscription_expectations.py (SubscriptionExpectations)
  - test_engine/subscription_state_manager.py (SubscriptionStateManager)
  - test_engine/user_verifier.py (UserVerifier)
  - models/subscription.py (GetSubscriptionsResponse and friends)
  - models/types.py (SubscriptionState)

Datetimes are modelled as integer UTC timestamps (seconds since
1970-01-01T00:00:00Z).  All datetimes handled by the engine are
timezone-aware UTC instants parsed by `datetime.fromisoformat` after a
`'Z' -> '+00:00'` replacement, so comparison of datetimes is comparison of
instants, `timedelta(days=n)` is addition of `n * 86400` seconds, and
`dateutil.relativedelta(months=n)` is calendar-month addition with
day-of-month clamping, implemented below via the standard civil-calendar
conversion algorithms.
-/

namespace Subscription

/- A UTC instant is a plain `Int`: whole seconds since the Unix epoch.
(The engine only ever produces and compares whole-second timestamps:
the backend serialises dates as `...T%H:%M:%S.000Z`.) -/

/-- Number of days from 1970-01-01 to the civil date `y-m-d`
(proleptic Gregorian calendar).  Standard days-from-civil algorithm. -/
def daysFromCivil (y : Int) (m d : Nat) : Int :=
  let y2 : Int := if m ≤ 2 then y - 1 else y
  let era : Int := Int.fdiv y2 400
  let yoe : Nat := (y2 - era * 400).toNat
  let mp : Nat := if 2 < m then m - 3 else m + 9
  let doy : Nat := (153 * mp + 2) / 5 + d - 1
  let doe : Nat := yoe * 365 + yoe / 4 - yoe / 100 + doy
  era * 146097 + (doe : Int) - 719468

/-- Civil date `(year, month, day)` of the day `z` days after 1970-01-01.
Standard civil-from-days algorithm. -/
def civilFromDays (z : Int) : Int × Nat × Nat :=
  let z2 : Int := z + 719468
  let era : Int := Int.fdiv z2 146097
  let doe : Nat := (z2 - era * 146097).toNat
  let yoe : Nat := (doe - doe / 1460 + doe / 36524 - doe / 146096) / 365
  let y : Int := (yoe : Int) + era * 400
  let doy : Nat := doe - (365 * yoe + yoe / 4 - yoe / 100)
  let mp : Nat := (5 * doy + 2) / 153
  let d : Nat := doy - (153 * mp + 2) / 5 + 1
  let m : Nat := if mp < 10 then mp + 3 else mp - 9
  (if m ≤ 2 then y + 1 else y, m, d)

/-- Gregorian leap-year test. -/
def isLeap (y : Int) : Bool :=
  Int.emod y 4 == 0 && (Int.emod y 100 != 0 || Int.emod y 400 == 0)

/-- Number of days in month `m` of year `y`. -/
def daysInMonth (y : Int) (m : Nat) : Nat :=
  if m = 2 then (if isLeap y then 29 else 28)
  else if m = 4 ∨ m = 6 ∨ m = 9 ∨ m = 11 then 30
  else 31

/-- Build the timestamp of `y-m-d h:mi:s` UTC. -/
def mkDT (y : Int) (m d h mi s : Nat) : Int :=
  daysFromCivil y m d * 86400 + (h : Int) * 3600 + (mi : Int) * 60 + (s : Int)

/-- Python `some_datetime + timedelta(days=n)`: shift by whole days. -/
def addDays (t : Int) (n : Int) : Int := t + n * 86400

/-- `dateutil.relativedelta(months=n)` applied to a datetime: add `n`
calendar months, clamping the day-of-month to the target month's length
(so Jan 31 + 1 month = Feb 29 in a leap year), keeping the time of day. -/
def relativedeltaMonths (t : Int) (n : Int) : Int :=
  let dayNum : Int := Int.fdiv t 86400
  let tod : Int := Int.emod t 86400
  let ymd := civilFromDays dayNum
  let y := ymd.1
  let m := ymd.2.1
  let d := ymd.2.2
  let total : Int := y * 12 + (m : Int) - 1 + n
  let y2 : Int := Int.fdiv total 12
  let m2 : Nat := (Int.emod total 12).toNat + 1
  let d2 : Nat := min d (daysInMonth y2 m2)
  daysFromCivil y2 m2 d2 * 86400 + tod

/-! ## Data model (models/types.py `SubscriptionState`, config dicts) -/

/-- `models.types.SubscriptionState` dataclass.  String-typed date fields
of the source hold ISO-8601 UTC strings; they are modelled here as parsed
instants, `none` standing for a missing (`None` / empty, i.e. falsy)
value.  `subscription_id` is stored by the engine as the backend's
integer id. -/
structure SubscriptionState where
  exists_ : Bool
  subscription_id : Option Int := none
  subscription_type : Option String := none
  subscription_type_code : Option Int := none
  plan_code : Option Int := none
  duration_months : Option Int := none
  status_code : Option Int := none
  status_name : String := "free"
  start_date : Option Int := none
  expire_date : Option Int := none
  trial_period_days : Option Int := none
  is_cancelled : Bool := false
  days_advanced : Int := 0
  error : Option String := none
deriving DecidableEq, Repr

/-- One entry of `config/subscriptions.json` as consumed through
`dict.get(key, default)`: every field optional, defaults applied at the
use sites exactly as in the source. -/
structure SubscriptionConfig where
  supports_trial : Option Bool := none
  trial_period_days : Option Int := none
  expected_status_with_trial : Option Int := none
  expected_status_name_with_trial : Option String := none
  expected_status_without_trial : Option Int := none
  expected_status_name_without_trial : Option String := none
  duration_months : Option Int := none
  duration_days : Option Int := none
  code : Option Int := none
deriving DecidableEq, Repr

/-- The dict returned by `calculate_expected_status` /
`_calculate_status_after_time_advance`. -/
structure ExpectedStatus where
  expected_status_code : Int
  expected_status_name : String
  check_trial_period : Bool
  trial_duration_days : Option Int
deriving DecidableEq, Repr

/-- Python truthiness of an optional integer (`None` and `0` are falsy). -/
def optTruthyInt : Option Int → Bool
  | none => false
  | some n => n != 0

/-- Python `x or d` for an optional integer `x`. -/
def pyOrInt : Option Int → Int → Int
  | none, d => d
  | some n, d => if n = 0 then d else n

/-! ## Expectation calculator
(test_engine/subscription_expectations.py `SubscriptionExpectations`) -/

/-- `SubscriptionExpectations._calculate_status_after_time_advance`.
The `none, none` catch-all models both the source's `else`-less fallthrough
when either date string is missing/empty and its `except` handler on an
unparseable date: both reach the same final fallback
`{'expected_status_code': current_status or 1, 'expected_status_name': 'active', ...}`. -/
def calcStatusAfterTimeAdvance (state? : Option SubscriptionState) : ExpectedStatus :=
  match state? with
  | none => ⟨1, "active", false, none⟩
  | some st =>
    match st.start_date, st.expire_date with
    | some start_date, some expire_date =>
      let simulated_now := addDays start_date st.days_advanced
      if expire_date ≤ simulated_now then
        if st.is_cancelled then
          ⟨4, "cancelled", false, none⟩
        else
          if optTruthyInt st.trial_period_days && st.status_code == some 3 then
            ⟨1, "active", false, none⟩
          else
            ⟨1, "active", false, none⟩
      else
        if st.is_cancelled then
          ⟨4, "cancelled", false, none⟩
        else if optTruthyInt st.trial_period_days && st.status_code == some 3 then
          ⟨3, "trial", true, st.trial_period_days⟩
        else
          ⟨1, "active", false, none⟩
    | _, _ => ⟨pyOrInt st.status_code 1, "active", false, none⟩

/-- `SubscriptionExpectations.calculate_expected_status`.
`trial_eligible` is the instance field set at construction;
`subscription_config` is taken as an explicit argument (the source's
`subscription_type`-keyed lookup of `subscriptions.json` only supplies
this dict when the caller passes `None`). -/
def calculate_expected_status (trial_eligible : Bool) (action_type : String)
    (subscription_state : Option SubscriptionState)
    (subscription_config : SubscriptionConfig) : ExpectedStatus :=
  if action_type = "cancel" then
    ⟨4, "cancelled", false, none⟩
  else if action_type = "refund" then
    ⟨5, "refunded", false, none⟩
  else if action_type = "advance_time" then
    calcStatusAfterTimeAdvance subscription_state
  else
    let supports_trial := subscription_config.supports_trial.getD false
    if supports_trial && trial_eligible then
      ⟨subscription_config.expected_status_with_trial.getD 3,
       subscription_config.expected_status_name_with_trial.getD "trial",
       true,
       some (subscription_config.trial_period_days.getD 45)⟩
    else
      ⟨subscription_config.expected_status_without_trial.getD 1,
       subscription_config.expected_status_name_without_trial.getD "active",
       false,
       none⟩

/-- `SubscriptionExpectations._add_subscription_duration`: adds the
configured number of months with `relativedelta` calendar arithmetic. -/
def add_subscription_duration (start_date : Int) (duration_months : Int) : Int :=
  relativedeltaMonths start_date duration_months

/-- `SubscriptionExpectations.calculate_expected_dates`.  Date strings are
modelled as instants; the source's `except` branch (date-string parse
failure) cannot arise in the model, and its missing-original-dates branch
is the `_, _` match falling back to the backend-returned dates for the
boundary decision, exactly as lines 163-166 of the source do. -/
def calculate_expected_dates (action_type : String)
    (subscription_state : Option SubscriptionState)
    (actual_start_date actual_expire_date : Int)
    (subscription_config : SubscriptionConfig) : Int × Int :=
  if action_type = "purchase" ∨ action_type = "cancel" ∨ action_type = "refund" ∨
      action_type = "reactivate" then
    (actual_start_date, actual_expire_date)
  else if action_type = "advance_time" then
    let is_cancelled := match subscription_state with
      | some st => st.is_cancelled
      | none => false
    let days_advanced := match subscription_state with
      | some st => st.days_advanced
      | none => 0
    let duration_months := subscription_config.duration_months.getD 12
    if is_cancelled then
      (actual_start_date, actual_expire_date)
    else
      let origStart := subscription_state.bind SubscriptionState.start_date
      let origExpire := subscription_state.bind SubscriptionState.expire_date
      let dates : Int × Int :=
        match origStart, origExpire with
        | some s, some e => (s, e)
        | _, _ => (actual_start_date, actual_expire_date)
      let start_date := dates.1
      let expire_date := dates.2
      let simulated_now := addDays start_date days_advanced
      if expire_date ≤ simulated_now then
        let expected_start := expire_date
        let expected_expire := add_subscription_duration expected_start duration_months
        (expected_start, expected_expire)
      else
        (actual_start_date, actual_expire_date)
  else
    (actual_start_date, actual_expire_date)

/-! ## User verifier's status-after-advance
(test_engine/user_verifier.py `UserVerifier._calculate_status_after_time_advance`) -/

/-- `UserVerifier._calculate_status_after_time_advance`.  The source reads
the tracked state dict and the `advance_time` action result; the simulated
total is `previous days_advanced + the action's days_advanced`.  As above,
the `_, _` case is the source's missing-dates `else`
(`expected_status_code = current_status or 1`). -/
def uvCalcStatusAfterTimeAdvance (st : SubscriptionState)
    (action_days_advanced : Int) : ExpectedStatus :=
  let total_days_advanced := st.days_advanced + action_days_advanced
  match st.start_date, st.expire_date with
  | some start_date, some expire_date =>
    let simulated_now := addDays start_date total_days_advanced
    if expire_date ≤ simulated_now then
      if st.is_cancelled then
        ⟨4, "cancelled", false, none⟩
      else
        if optTruthyInt st.trial_period_days && st.status_code == some 3 then
          ⟨1, "active", false, none⟩
        else
          ⟨1, "active", false, none⟩
    else
      let code : Int :=
        if st.is_cancelled then 4
        else if optTruthyInt st.trial_period_days && st.status_code == some 3 then 3
        else 1
      let nm : String :=
        if st.is_cancelled then "cancelled"
        else if optTruthyInt st.trial_period_days && st.status_code == some 3 then "trial"
        else "active"
      let chk := optTruthyInt st.trial_period_days && st.status_code == some 3
      ⟨code, nm, chk, if chk then st.trial_period_days else none⟩
  | _, _ => ⟨pyOrInt st.status_code 1, "active", false, none⟩

/-! ## API response model (models/subscription.py) -/

/-- One element of `GetSubscriptionsResponse.subscriptions`
(`models.subscription.Subscription`): `id, type, status,
data.package.code, data.package.trial_period_days, startDate, expireDate`.
`trial_period_days` arrives as an optional numeric string and is modelled
as the integer it denotes. -/
structure ApiSubscription where
  id : Int
  subType : Int
  status : Int
  package_code : Int
  package_trial_period_days : Option Int := none
  startDate : Int
  expireDate : Int
deriving DecidableEq, Repr

/-- `models.subscription.GetSubscriptionsResponse`. -/
structure GetSubscriptionsResponse where
  success : Bool
  subscriptions : List ApiSubscription
deriving DecidableEq, Repr

/-- `GetSubscriptionsResponse.has_active_subscription`:
true iff the subscription list is non-empty. -/
def has_active_subscription (r : GetSubscriptionsResponse) : Bool :=
  decide (0 < r.subscriptions.length)

/-- `GetSubscriptionsResponse.get_latest_subscription`: sorts by
`startDate` descending (Python's stable sort, so ties keep list order)
and takes the head — i.e. the first element carrying the maximal start
date.  ISO-8601 strings of a uniform format compare lexicographically in
chronological order, so the string sort of the source is the instant
comparison used here. -/
def get_latest_subscription : List ApiSubscription → Option ApiSubscription
  | [] => none
  | s :: rest =>
    some (rest.foldl (fun best x => if best.startDate < x.startDate then x else best) s)

/-- `_select_subscription_at_simulated_time`, duplicated verbatim in
`SubscriptionStateManager` and `UserVerifier` (identical logic, modelled
once).  The `[]`-list arm of the match models the source's `except`
handler: `all_subs[-1]` raises `IndexError` on an empty list and the
handler returns `get_latest_subscription()`. -/
def selectSubscriptionAtSimulatedTime (r : GetSubscriptionsResponse)
    (days_advanced : Int) : Option ApiSubscription :=
  let all_subs := r.subscriptions
  if days_advanced = 0 ∨ all_subs.length = 1 then
    get_latest_subscription all_subs
  else
    match all_subs.getLast? with
    | none => get_latest_subscription all_subs
    | some original_sub =>
      let simulated_now := addDays original_sub.startDate days_advanced
      match all_subs.find?
          (fun s => decide (s.startDate ≤ simulated_now) &&
                    decide (simulated_now ≤ s.expireDate)) with
      | some sub => some sub
      | none => get_latest_subscription all_subs

/-- The start date of the subscription that started earliest in the list,
as the words of the spec describe the "original start date"
("the earliest subscription's start date in the returned list").
Stated for comparison with the implementation, which instead reads the
start date of the *last* element of the list. -/
def specEarliestStartDate : List ApiSubscription → Option Int
  | [] => none
  | s :: rest => some (rest.foldl (fun acc x => min acc x.startDate) s.startDate)

/-- The selection procedure as the spec's words describe it: reference
start = earliest start date in the list, pick the subscription whose
`[startDate, expireDate]` interval contains reference + days, else fall
back to the most recently started subscription.  For comparison with
`selectSubscriptionAtSimulatedTime`. -/
def specSelectAtSimulatedTime (r : GetSubscriptionsResponse)
    (days_advanced : Int) : Option ApiSubscription :=
  let all_subs := r.subscriptions
  if days_advanced = 0 ∨ all_subs.length = 1 then
    get_latest_subscription all_subs
  else
    match specEarliestStartDate all_subs with
    | none => get_latest_subscription all_subs
    | some original_start =>
      let simulated_now := addDays original_start days_advanced
      match all_subs.find?
          (fun s => decide (s.startDate ≤ simulated_now) &&
                    decide (simulated_now ≤ s.expireDate)) with
      | some sub => some sub
      | none => get_latest_subscription all_subs

/-! ## State capture
(test_engine/subscription_state_manager.py `SubscriptionStateManager`) -/

/-- `SubscriptionStateManager.get_current_state`.  The membership call
and response parsing are modelled as an `Except`-valued input: `.error m`
stands for any exception raised while querying/parsing, handled by the
source's `except` clause.  `statusCodes` is the `status_codes` mapping of
`config/subscriptions.json` (file not part of the sources; treated as an
arbitrary lookup, defaulted to `'unknown'` exactly as `dict.get` does).
The inner `none` arm of the selection match is unreachable for a
non-empty list; in the source a `None` there would raise and be converted
by the same `except` clause, which is what the arm returns. -/
def get_current_state (resp : Except String GetSubscriptionsResponse)
    (statusCodes : Int → Option String) (days_advanced : Int) : SubscriptionState :=
  match resp with
  | .error e =>
    { exists_ := false
      subscription_id := none
      subscription_type := none
      subscription_type_code := none
      plan_code := none
      duration_months := none
      status_code := none
      status_name := "error"
      start_date := none
      expire_date := none
      trial_period_days := none
      is_cancelled := false
      days_advanced := days_advanced
      error := some e }
  | .ok r =>
    if has_active_subscription r then
      match selectSubscriptionAtSimulatedTime r days_advanced with
      | none =>
        { exists_ := false
          status_name := "error"
          days_advanced := days_advanced
          error := some "'NoneType' object has no attribute 'status'" }
      | some latest_sub =>
        { exists_ := true
          subscription_id := some latest_sub.id
          subscription_type := none
          subscription_type_code := some latest_sub.subType
          plan_code := some latest_sub.package_code
          duration_months := none
          status_code := some latest_sub.status
          status_name := (statusCodes latest_sub.status).getD "unknown"
          start_date := some latest_sub.startDate
          expire_date := some latest_sub.expireDate
          trial_period_days := latest_sub.package_trial_period_days
          is_cancelled := latest_sub.status = 4
          days_advanced := days_advanced
          error := none }
    else
      { exists_ := false
        subscription_id := none
        subscription_type := none
        subscription_type_code := none
        plan_code := none
        duration_months := none
        status_code := none
        status_name := "free"
        start_date := none
        expire_date := none
        trial_period_days := none
        is_cancelled := false
        days_advanced := days_advanced
        error := none }

/-! ## User-side verification
(test_engine/user_verifier.py `UserVerifier._verify_subscription_status`) -/

/-- The kinds of verification issue `_verify_subscription_status` can
append to its `verification_issues` list (the source stores interpolated
message strings; only the kind matters for verification). -/
inductive VIssue where
  | statusCodeMismatch
  | planCodeMismatch
  | trialFieldMissing
  | trialFieldMismatch
  | nonTrialHasTrialField
  | startDateMismatchAfterAdvance
  | startDateNotRecent
  | trialPeriodDurationMismatch
  | durationIncorrect
deriving DecidableEq, Repr

/-- The `if check_dates:` block of `_verify_subscription_status`
(user_verifier.py lines 304-366): the date-comparison checks, returning
the issues they raise.  `startD`/`expireD` are the examined
subscription's dates, `now` is `datetime.now()`.  Note the tolerances of
the source: 60 seconds for the start-date-after-advance comparison, but
whole-day arithmetic (`timedelta.days`, i.e. floored division by 86400)
with an allowance of 1 for the trial-period and duration comparisons. -/
def dateVerificationIssues (action_type : String) (state_days_advanced : Int)
    (state_prev_expire_date : Option Int) (check_trial_period : Bool)
    (trial_duration_days : Option Int) (startD expireD now : Int) : List VIssue :=
  let startIssues : List VIssue :=
    if action_type = "advance_time" ∨ 0 < state_days_advanced then
      match state_prev_expire_date with
      | some prev_expire =>
        if 0 < state_days_advanced then
          let time_diff := (startD - prev_expire).natAbs
          if 60 < time_diff then [VIssue.startDateMismatchAfterAdvance] else []
        else []
      | none => []
    else
      let time_since_start := now - startD
      if time_since_start < 0 ∨ 3600 < time_since_start then
        [VIssue.startDateNotRecent]
      else []
  let periodIssues : List VIssue :=
    if check_trial_period && optTruthyInt trial_duration_days then
      let expected_expire := addDays startD (trial_duration_days.getD 0)
      let days_diff := (Int.fdiv (expireD - expected_expire) 86400).natAbs
      if 1 < days_diff then [VIssue.trialPeriodDurationMismatch] else []
    else
      let duration_days := Int.fdiv (expireD - startD) 86400
      if 1 < (duration_days - 365).natAbs then [VIssue.durationIncorrect] else []
  startIssues ++ periodIssues

/-- The dict `_verify_subscription_status` returns, restricted to the
keys the development reasons about (`verified`, `message`, the optional
`subscription` payload, the issue list, and the `actual_status` marker
of the no-subscription branch). -/
structure VerificationOutcome where
  verified : Bool
  message : String
  subscription : Option ApiSubscription := none
  issues : List VIssue := []
  actual_status : Option String := none
deriving DecidableEq, Repr

/-- `UserVerifier._verify_subscription_status`.  The API call is an
`Except`-valued input (`.error` = any exception, handled by the final
`except` clause).  Issue messages are abstracted to their `VIssue` kind,
and the failing branch's `'; '.join(...)` message to the constant
`"mismatch"`.  The unreachable `none` selection arm models the
`AttributeError` a `None` subscription would raise, landing in the same
`except` clause. -/
def verifySubscriptionStatus (resp : Except String GetSubscriptionsResponse)
    (expected_status_code : Option Int) (expected_plan_code : Option Int)
    (check_dates : Bool) (check_trial_period : Bool)
    (trial_duration_days : Option Int) (action_type : String)
    (state_days_advanced : Int) (state_prev_expire_date : Option Int)
    (now : Int) : VerificationOutcome :=
  match resp with
  | .error e =>
    { verified := false, message := "Verification error: " ++ e }
  | .ok r =>
    if has_active_subscription r then
      match selectSubscriptionAtSimulatedTime r state_days_advanced with
      | none =>
        { verified := false, message := "Verification error: attribute error" }
      | some latest_sub =>
        let statusIssues : List VIssue :=
          match expected_status_code with
          | some ec => if latest_sub.status ≠ ec then [VIssue.statusCodeMismatch] else []
          | none => []
        let planIssues : List VIssue :=
          match expected_plan_code with
          | some pc => if latest_sub.package_code ≠ pc then [VIssue.planCodeMismatch] else []
          | none => []
        let trialFieldIssues : List VIssue :=
          if check_trial_period && optTruthyInt trial_duration_days then
            match latest_sub.package_trial_period_days with
            | none => [VIssue.trialFieldMissing]
            | some actual =>
              if some actual ≠ trial_duration_days then [VIssue.trialFieldMismatch] else []
          else if !check_trial_period && latest_sub.package_trial_period_days.isSome &&
              latest_sub.status ≠ 4 then
            [VIssue.nonTrialHasTrialField]
          else []
        let dateIssues : List VIssue :=
          if check_dates then
            dateVerificationIssues action_type state_days_advanced
              state_prev_expire_date check_trial_period trial_duration_days
              latest_sub.startDate latest_sub.expireDate now
          else []
        let verification_issues := statusIssues ++ planIssues ++ trialFieldIssues ++ dateIssues
        if verification_issues.isEmpty then
          { verified := true
            message := "Subscription verified successfully"
            subscription := some latest_sub
            issues := [] }
        else
          { verified := false
            message := "mismatch"
            subscription := some latest_sub
            issues := verification_issues }
    else
      { verified := false
        message := "No active subscription found"
        subscription := none
        issues := []
        actual_status := some "none" }

/-! ## Claims -/

/-- C1, counterexample.  The claim states that for *every* subscription
config, a trial-eligible purchase on a trial-supporting plan yields
expected status code 3; but `calculate_expected_status` reads the code
from the config's `expected_status_with_trial` key (default 3), so a
config carrying `expected_status_with_trial = 2` yields 2, not 3. -/
theorem C1_counterexample :
    ¬ ((calculate_expected_status true "purchase" none
        { supports_trial := some true,
          expected_status_with_trial := some 2 }).expected_status_code = 3) := by
  decide

/-- C1, amended.  For every trial-eligibility flag, config and prior
snapshot: `cancel` yields 4/"cancelled" with no trial check, `refund`
yields 5/"refunded" with no trial check, and `purchase`/`reactivate`
yield the config's `expected_status_with_trial` (default 3) /
`expected_status_name_with_trial` (default "trial") with trial check on
and `trial_duration_days` equal to the config's `trial_period_days`
(default 45) exactly when the config's `supports_trial` (default false)
is true and the caller is trial-eligible; otherwise the config's
`expected_status_without_trial` (default 1) /
`expected_status_name_without_trial` (default "active") with no trial
check. -/
theorem C1_amended (te : Bool) (cfg : SubscriptionConfig)
    (st? : Option SubscriptionState) :
    calculate_expected_status te "cancel" st? cfg = ⟨4, "cancelled", false, none⟩ ∧
    calculate_expected_status te "refund" st? cfg = ⟨5, "refunded", false, none⟩ ∧
    (∀ act : String, act = "purchase" ∨ act = "reactivate" →
      calculate_expected_status te act st? cfg =
        if cfg.supports_trial.getD false && te then
          ⟨cfg.expected_status_with_trial.getD 3,
           cfg.expected_status_name_with_trial.getD "trial",
           true, some (cfg.trial_period_days.getD 45)⟩
        else
          ⟨cfg.expected_status_without_trial.getD 1,
           cfg.expected_status_name_without_trial.getD "active",
           false, none⟩) := by
  refine ⟨by simp [calculate_expected_status], by simp [calculate_expected_status], ?_⟩
  intro act h
  rcases h with rfl | rfl <;> simp [calculate_expected_status]

/-- C1 witness for the amended theorem: the trial-eligible purchase on a
trial-supporting config with no overriding keys gives 3/"trial"/45, and
cancel gives 4/"cancelled". -/
theorem C1_amended_witness :
    calculate_expected_status true "cancel" none
      { supports_trial := some true } = ⟨4, "cancelled", false, none⟩ ∧
    calculate_expected_status true "purchase" none
      { supports_trial := some true } = ⟨3, "trial", true, some 45⟩ := by
  refine ⟨(C1_amended true { supports_trial := some true } none).1, ?_⟩
  have h := (C1_amended true { supports_trial := some true } none).2.2
    "purchase" (Or.inl rfl)
  simpa using h

/-- C2. For a prior snapshot with start `T0`, expire `T0 + 45` days, not
cancelled, status code 3 and a (nonzero) `trial_period_days`,
`_calculate_status_after_time_advance` yields 1/"active" when
`days_advanced = 46` and 3/"trial" when `days_advanced = 44`. -/
theorem C2_trial_boundary (st : SubscriptionState) (T0 : Int) (d : Int)
    (hs : st.start_date = some T0) (he : st.expire_date = some (addDays T0 45))
    (hc : st.is_cancelled = false) (hst : st.status_code = some 3)
    (htp : st.trial_period_days = some d) (hd : d ≠ 0) :
    (st.days_advanced = 46 →
      calcStatusAfterTimeAdvance (some st) = ⟨1, "active", false, none⟩) ∧
    (st.days_advanced = 44 →
      calcStatusAfterTimeAdvance (some st) = ⟨3, "trial", true, some d⟩) := by
  constructor <;> intro hadv
  · have hcmp : addDays T0 45 ≤ addDays T0 st.days_advanced := by
      rw [hadv]; unfold addDays; omega
    simp [calcStatusAfterTimeAdvance, hs, he, hc, hst, htp, hcmp]
  · have hcmp : ¬ (addDays T0 45 ≤ addDays T0 st.days_advanced) := by
      rw [hadv]; unfold addDays; omega
    simp [calcStatusAfterTimeAdvance, hs, he, hc, hst, htp, hcmp, optTruthyInt, hd]

/-- C2 witness: the two concrete snapshots (T0 = epoch, trial period 45
days) advanced by 46 and by 44 days. -/
theorem C2_trial_boundary_witness :
    calcStatusAfterTimeAdvance (some
      { exists_ := true, status_code := some 3,
        start_date := some 0, expire_date := some (addDays 0 45),
        trial_period_days := some 45, is_cancelled := false,
        days_advanced := 46 }) = ⟨1, "active", false, none⟩ ∧
    calcStatusAfterTimeAdvance (some
      { exists_ := true, status_code := some 3,
        start_date := some 0, expire_date := some (addDays 0 45),
        trial_period_days := some 45, is_cancelled := false,
        days_advanced := 44 }) = ⟨3, "trial", true, some 45⟩ := by
  constructor
  · exact (C2_trial_boundary _ 0 45 rfl rfl rfl rfl rfl (by decide)).1 rfl
  · exact (C2_trial_boundary _ 0 45 rfl rfl rfl rfl rfl (by decide)).2 rfl

/-- C3. For `advance_time`, `calculate_expected_dates` returns the
backend-returned dates unchanged when the prior snapshot is cancelled;
otherwise, whenever the snapshot's original start plus `days_advanced`
is at or past the snapshot's original expire date — a condition read off
the snapshot's dates, with the backend-returned dates arbitrary — it
returns expected start = old expire and expected expire = expected start
plus `duration_months` calendar months; and the calendar arithmetic
takes 2024-01-31 + 12 months to 2025-01-31 and 2024-01-31 + 1 month to
2024-02-29 (no overflow into March). -/
theorem C3_advance_time_dates (cfg : SubscriptionConfig)
    (st : SubscriptionState) (aS aE : Int) :
    (st.is_cancelled = true →
      calculate_expected_dates "advance_time" (some st) aS aE cfg = (aS, aE)) ∧
    (∀ s e : Int, st.is_cancelled = false → st.start_date = some s →
      st.expire_date = some e → e ≤ addDays s st.days_advanced →
      calculate_expected_dates "advance_time" (some st) aS aE cfg =
        (e, add_subscription_duration e (cfg.duration_months.getD 12))) ∧
    add_subscription_duration (mkDT 2024 1 31 0 0 0) 12 = mkDT 2025 1 31 0 0 0 ∧
    add_subscription_duration (mkDT 2024 1 31 0 0 0) 1 = mkDT 2024 2 29 0 0 0 := by
  refine ⟨?_, ?_, by decide, by decide⟩
  · intro hc
    simp [calculate_expected_dates, hc]
  · intro s e hc hs he hcmp
    simp [calculate_expected_dates, hc, hs, he, hcmp]

/-- C3 witness: a cancelled snapshot keeps the backend dates, and a
non-cancelled trial snapshot (start epoch, expire 45 days later,
advanced 46 days, 12-month plan) renews from the old expire date. -/
theorem C3_advance_time_dates_witness :
    calculate_expected_dates "advance_time"
      (some { exists_ := true, is_cancelled := true, days_advanced := 46,
              start_date := some 0, expire_date := some (addDays 0 45) })
      10 20 { duration_months := some 12 } = (10, 20) ∧
    calculate_expected_dates "advance_time"
      (some { exists_ := true, is_cancelled := false, days_advanced := 46,
              start_date := some 0, expire_date := some (addDays 0 45) })
      10 20 { duration_months := some 12 } =
      (addDays 0 45, add_subscription_duration (addDays 0 45) 12) := by
  constructor
  · exact (C3_advance_time_dates { duration_months := some 12 } _ 10 20).1 rfl
  · have h := (C3_advance_time_dates { duration_months := some 12 }
      { exists_ := true, is_cancelled := false, days_advanced := 46,
        start_date := some 0, expire_date := some (addDays 0 45) } 10 20).2.1
      0 (addDays 0 45) rfl rfl rfl (by decide)
    simpa using h

/-- C4, counterexample.  Cancellation dominance fails for a snapshot
whose start date is missing: `_calculate_status_after_time_advance` then
falls back to `current_status or 1`, so a cancelled snapshot whose
recorded status code is 3 yields expected status 3, not 4. -/
theorem C4_counterexample :
    ({ exists_ := true, status_code := some 3, trial_period_days := some 45,
       is_cancelled := true, start_date := none, expire_date := some 0,
       days_advanced := 100 } : SubscriptionState).is_cancelled = true ∧
    (calcStatusAfterTimeAdvance (some
      { exists_ := true, status_code := some 3, trial_period_days := some 45,
        is_cancelled := true, start_date := none, expire_date := some 0,
        days_advanced := 100 })).expected_status_code ≠ 4 := by
  decide

/-- C4, amended.  For every prior snapshot with `is_cancelled = True`
whose start and expire dates are both present, and every amount of time
advancement, both implementations of
`_calculate_status_after_time_advance` (SubscriptionExpectations' and
UserVerifier's) return expected status 4 ("cancelled"); when a date is
missing the functions instead fall back to the snapshot's `status_code`
(or 1), which is 4 only if the snapshot already recorded status 4. -/
theorem C4_cancellation_dominance (st : SubscriptionState) (s e ad : Int)
    (hc : st.is_cancelled = true) (hs : st.start_date = some s)
    (he : st.expire_date = some e) :
    (calcStatusAfterTimeAdvance (some st)).expected_status_code = 4 ∧
    (calcStatusAfterTimeAdvance (some st)).expected_status_name = "cancelled" ∧
    (uvCalcStatusAfterTimeAdvance st ad).expected_status_code = 4 ∧
    (uvCalcStatusAfterTimeAdvance st ad).expected_status_name = "cancelled" := by
  refine ⟨?_, ?_, ?_, ?_⟩
  all_goals simp only [calcStatusAfterTimeAdvance, uvCalcStatusAfterTimeAdvance, hs, he]
  all_goals split <;> simp [hc]

/-- C4 witness: a cancelled active-period snapshot with both dates
present, advanced by 5 further days. -/
theorem C4_cancellation_dominance_witness :
    (calcStatusAfterTimeAdvance (some
      { exists_ := true, status_code := some 4, is_cancelled := true,
        start_date := some 0, expire_date := some 86400,
        days_advanced := 2 })).expected_status_code = 4 ∧
    (uvCalcStatusAfterTimeAdvance
      { exists_ := true, status_code := some 4, is_cancelled := true,
        start_date := some 0, expire_date := some 86400,
        days_advanced := 2 } 5).expected_status_code = 4 := by
  have h := C4_cancellation_dominance
    { exists_ := true, status_code := some 4, is_cancelled := true,
      start_date := some 0, expire_date := some 86400, days_advanced := 2 }
    0 86400 5 rfl rfl rfl
  exact ⟨h.1, h.2.2.1⟩

/-- C5, counterexample.  A status-3 snapshot with `trial_period_days`
unset, still strictly inside its period, does NOT keep status 3:
`_calculate_status_after_time_advance`'s not-yet-expired branch requires
a truthy `trial_period_days` to predict "trial" and otherwise predicts
1 ("active"). -/
theorem C5_counterexample :
    addDays 0 10 < 3888000 ∧
    (calcStatusAfterTimeAdvance (some
      { exists_ := true, status_code := some 3, trial_period_days := none,
        start_date := some 0, expire_date := some 3888000,
        is_cancelled := false, days_advanced := 10 })).expected_status_code = 1 := by
  decide

/-- C5, amended.  For every prior snapshot with both dates present whose
simulated instant (original start plus total days advanced) is strictly
before the expire date, both implementations of
`_calculate_status_after_time_advance` return: 4/"cancelled" when
`is_cancelled`; 3/"trial" (with trial check and the snapshot's
`trial_period_days`) when not cancelled, status code 3 AND
`trial_period_days` truthy (present and nonzero); and 1/"active" in every
other non-cancelled case — in particular a status-3 snapshot whose
`trial_period_days` is missing or zero is predicted 1 ("active"), not 3. -/
theorem C5_status_before_expiry (st : SubscriptionState) (s e ad : Int)
    (hs : st.start_date = some s) (he : st.expire_date = some e) :
    (addDays s st.days_advanced < e →
      (st.is_cancelled = true →
        (calcStatusAfterTimeAdvance (some st)).expected_status_code = 4 ∧
        (calcStatusAfterTimeAdvance (some st)).expected_status_name = "cancelled") ∧
      (st.is_cancelled = false →
        (optTruthyInt st.trial_period_days && st.status_code == some 3) = true →
        calcStatusAfterTimeAdvance (some st) = ⟨3, "trial", true, st.trial_period_days⟩) ∧
      (st.is_cancelled = false →
        (optTruthyInt st.trial_period_days && st.status_code == some 3) = false →
        calcStatusAfterTimeAdvance (some st) = ⟨1, "active", false, none⟩)) ∧
    (addDays s (st.days_advanced + ad) < e →
      (st.is_cancelled = true →
        (uvCalcStatusAfterTimeAdvance st ad).expected_status_code = 4 ∧
        (uvCalcStatusAfterTimeAdvance st ad).expected_status_name = "cancelled") ∧
      (st.is_cancelled = false →
        (optTruthyInt st.trial_period_days && st.status_code == some 3) = true →
        uvCalcStatusAfterTimeAdvance st ad = ⟨3, "trial", true, st.trial_period_days⟩) ∧
      (st.is_cancelled = false →
        (optTruthyInt st.trial_period_days && st.status_code == some 3) = false →
        uvCalcStatusAfterTimeAdvance st ad = ⟨1, "active", false, none⟩)) := by
  constructor
  · intro hlt
    have hn : ¬ (e ≤ addDays s st.days_advanced) := not_le.mpr hlt
    refine ⟨fun hc => ?_, fun hc hflag => ?_, fun hc hflag => ?_⟩
    · simp [calcStatusAfterTimeAdvance, hs, he, hn, hc]
    · simp [calcStatusAfterTimeAdvance, hs, he, hn, hc, hflag]
    · simp [calcStatusAfterTimeAdvance, hs, he, hn, hc, hflag]
  · intro hlt
    have hn : ¬ (e ≤ addDays s (st.days_advanced + ad)) := not_le.mpr hlt
    refine ⟨fun hc => ?_, fun hc hflag => ?_, fun hc hflag => ?_⟩
    · simp [uvCalcStatusAfterTimeAdvance, hs, he, hn, hc]
    · simp [uvCalcStatusAfterTimeAdvance, hs, he, hn, hc, hflag]
    · simp [uvCalcStatusAfterTimeAdvance, hs, he, hn, hc, hflag]

/-- C5 witness: a status-3 snapshot with trial_period_days 45, 10 of 45
days into its period (plus a 4-day further advance for the verifier's
variant), keeps status 3/"trial". -/
theorem C5_status_before_expiry_witness :
    calcStatusAfterTimeAdvance (some
      { exists_ := true, status_code := some 3, trial_period_days := some 45,
        start_date := some 0, expire_date := some 3888000,
        is_cancelled := false, days_advanced := 10 }) =
      ⟨3, "trial", true, some 45⟩ ∧
    uvCalcStatusAfterTimeAdvance
      { exists_ := true, status_code := some 3, trial_period_days := some 45,
        start_date := some 0, expire_date := some 3888000,
        is_cancelled := false, days_advanced := 10 } 4 =
      ⟨3, "trial", true, some 45⟩ := by
  have h := C5_status_before_expiry
    { exists_ := true, status_code := some 3, trial_period_days := some 45,
      start_date := some 0, expire_date := some 3888000,
      is_cancelled := false, days_advanced := 10 }
    0 3888000 4 rfl rfl
  exact ⟨(h.1 (by decide)).2.1 rfl (by decide), (h.2 (by decide)).2.1 rfl (by decide)⟩

/-- C6, counterexample.  The trial-period expire-date comparison does
not use a 60-second tolerance: an actual expire date a full day (86400
seconds, far more than 60) past the expected trial expiry raises no
verification issue, because the check compares `timedelta.days` against
an allowance of 1. -/
theorem C6_counterexample :
    dateVerificationIssues "advance_time" 1 (some 0) true (some 45) 0
      (addDays (addDays 0 45) 1) 0 = [] ∧
    60 < (addDays (addDays 0 45) 1 - addDays 0 45).natAbs := by
  decide

/-- C6, amended.  Of the user-side verifier's date comparisons, only the
start-date-after-time-advance check uses the 60-second tolerance (it
fails exactly when the instants differ by more than 60 seconds); the
trial-period expire check and the subscription-duration check instead
compare whole days (`timedelta.days`, floored division of the signed
difference by 86400) with an allowance of 1 day. -/
theorem C6_date_tolerances (state_days prev_expire d startD expireD now : Int)
    (hdays : 0 < state_days) (hd : d ≠ 0) :
    (VIssue.startDateMismatchAfterAdvance ∈
        dateVerificationIssues "advance_time" state_days (some prev_expire) true
          (some d) startD expireD now ↔
      60 < (startD - prev_expire).natAbs) ∧
    (VIssue.trialPeriodDurationMismatch ∈
        dateVerificationIssues "advance_time" state_days (some prev_expire) true
          (some d) startD expireD now ↔
      1 < (Int.fdiv (expireD - addDays startD d) 86400).natAbs) ∧
    (VIssue.durationIncorrect ∈
        dateVerificationIssues "advance_time" state_days (some prev_expire) false
          none startD expireD now ↔
      1 < (Int.fdiv (expireD - startD) 86400 - 365).natAbs) := by
  refine ⟨?_, ?_, ?_⟩ <;>
    (simp only [dateVerificationIssues]
     simp [hdays, optTruthyInt, hd])

/-- C6 witness for the amended theorem: a trial expire date exactly 45
days after the start and a start date equal to the previous expire date
raise no issues; the characterisations hold at these inputs. -/
theorem C6_date_tolerances_witness :
    ((VIssue.startDateMismatchAfterAdvance ∈
        dateVerificationIssues "advance_time" 1 (some 0) true (some 45) 0 3888000 0 ↔
      60 < ((0 : Int) - 0).natAbs) ∧
     (VIssue.trialPeriodDurationMismatch ∈
        dateVerificationIssues "advance_time" 1 (some 0) true (some 45) 0 3888000 0 ↔
      1 < (Int.fdiv (3888000 - addDays 0 45) 86400).natAbs) ∧
     (VIssue.durationIncorrect ∈
        dateVerificationIssues "advance_time" 1 (some 0) false none 0 3888000 0 ↔
      1 < (Int.fdiv ((3888000 : Int) - 0) 86400 - 365).natAbs)) :=
  C6_date_tolerances 1 0 45 0 3888000 0 (by decide) (by decide)

/-- C7, counterexample.  After a refund, when the membership API
reports no active subscription, `_verify_subscription_status` does NOT
return a passing result: it returns `verified = False` with message
"No active subscription found" (there is no refund special case). -/
theorem C7_counterexample :
    (verifySubscriptionStatus (Except.ok ⟨true, []⟩) (some 5) none false false
      none "refund" 0 none 0).verified = false ∧
    (verifySubscriptionStatus (Except.ok ⟨true, []⟩) (some 5) none false false
      none "refund" 0 none 0).message = "No active subscription found" := by
  decide

/-- C7, amended.  Whenever the membership API reports no active
subscription — whatever the expected values and the action being
verified, refunds included — the user-side `_verify_subscription_status`
returns `verified = False`, message "No active subscription found",
`actual_status = 'none'`, and no subscription payload; the absence of a
subscription is a failing outcome, not a passing one. -/
theorem C7_no_subscription_fails (r : GetSubscriptionsResponse)
    (esc epc : Option Int) (cd ctp : Bool) (tdd : Option Int)
    (act : String) (sda : Int) (spe : Option Int) (now : Int)
    (h : r.subscriptions = []) :
    verifySubscriptionStatus (Except.ok r) esc epc cd ctp tdd act sda spe now =
      { verified := false, message := "No active subscription found",
        subscription := none, issues := [], actual_status := some "none" } := by
  simp [verifySubscriptionStatus, has_active_subscription, h]

/-- C7 witness: the refund-shaped call (expected status 5) on an empty
subscription list. -/
theorem C7_no_subscription_fails_witness :
    verifySubscriptionStatus (Except.ok ⟨true, []⟩) (some 5) none false false
      none "refund" 0 none 0 =
      { verified := false, message := "No active subscription found",
        subscription := none, issues := [], actual_status := some "none" } :=
  C7_no_subscription_fails ⟨true, []⟩ (some 5) none false false none "refund"
    0 none 0 rfl

/-- C8. Every snapshot `get_current_state` produces with
`exists_ = false` (free user or error) carries no subscription data:
its id, type, type code, plan code, duration, status code, dates and
trial-period fields are all `none` — never partially populated.
(The non-subscription bookkeeping fields are set: `status_name` is
"free" or "error", `is_cancelled` is false, `days_advanced` is passed
through, and `error` holds the message on the error path.) -/
theorem C8_free_snapshot_unpopulated
    (resp : Except String GetSubscriptionsResponse)
    (sc : Int → Option String) (days : Int)
    (h : (get_current_state resp sc days).exists_ = false) :
    (get_current_state resp sc days).subscription_id = none ∧
    (get_current_state resp sc days).subscription_type = none ∧
    (get_current_state resp sc days).subscription_type_code = none ∧
    (get_current_state resp sc days).plan_code = none ∧
    (get_current_state resp sc days).duration_months = none ∧
    (get_current_state resp sc days).status_code = none ∧
    (get_current_state resp sc days).start_date = none ∧
    (get_current_state resp sc days).expire_date = none ∧
    (get_current_state resp sc days).trial_period_days = none := by
  cases resp with
  | error e => simp [get_current_state]
  | ok r =>
    by_cases ha : has_active_subscription r = true
    · rcases hsel : selectSubscriptionAtSimulatedTime r days with _ | sub
      · simp [get_current_state, ha, hsel]
      · simp [get_current_state, ha, hsel] at h
    · simp [get_current_state, ha]

/-- C8 witness: the free-user snapshot for an empty subscription list. -/
theorem C8_free_snapshot_unpopulated_witness :
    (get_current_state (Except.ok ⟨true, []⟩) (fun _ => none) 0).subscription_id = none ∧
    (get_current_state (Except.ok ⟨true, []⟩) (fun _ => none) 0).subscription_type = none ∧
    (get_current_state (Except.ok ⟨true, []⟩) (fun _ => none) 0).subscription_type_code = none ∧
    (get_current_state (Except.ok ⟨true, []⟩) (fun _ => none) 0).plan_code = none ∧
    (get_current_state (Except.ok ⟨true, []⟩) (fun _ => none) 0).duration_months = none ∧
    (get_current_state (Except.ok ⟨true, []⟩) (fun _ => none) 0).status_code = none ∧
    (get_current_state (Except.ok ⟨true, []⟩) (fun _ => none) 0).start_date = none ∧
    (get_current_state (Except.ok ⟨true, []⟩) (fun _ => none) 0).expire_date = none ∧
    (get_current_state (Except.ok ⟨true, []⟩) (fun _ => none) 0).trial_period_days = none :=
  C8_free_snapshot_unpopulated (Except.ok ⟨true, []⟩) (fun _ => none) 0 rfl

/-- C9. `get_current_state` converts every error arising while querying
or parsing the membership API's subscription list (the `.error`
constructor of its input) into an `exists_ = false`, status-name
"error" snapshot carrying the exception's message in `error`, instead
of propagating it — the function is total and returns a snapshot on
every input. -/
theorem C9_error_snapshot (e : String) (sc : Int → Option String) (days : Int) :
    get_current_state (Except.error e) sc days =
      { exists_ := false, subscription_id := none, subscription_type := none,
        subscription_type_code := none, plan_code := none,
        duration_months := none, status_code := none, status_name := "error",
        start_date := none, expire_date := none, trial_period_days := none,
        is_cancelled := false, days_advanced := days, error := some e } := rfl

/-- Helper: the fold `get_latest_subscription` performs returns an
element of the list that every element's start date is bounded by
(the first element carrying the maximal start date). -/
theorem latest_fold_spec (s : ApiSubscription) (rest : List ApiSubscription) :
    (rest.foldl (fun best x => if best.startDate < x.startDate then x else best) s) ∈
      s :: rest ∧
    s.startDate ≤
      (rest.foldl (fun best x => if best.startDate < x.startDate then x else best)
        s).startDate ∧
    ∀ x ∈ rest, x.startDate ≤
      (rest.foldl (fun best x => if best.startDate < x.startDate then x else best)
        s).startDate := by
  induction rest generalizing s with
  | nil => simp
  | cons y ys ih =>
    obtain ⟨hmem, hge, hall⟩ := ih (if s.startDate < y.startDate then y else s)
    have hs : s.startDate ≤ (if s.startDate < y.startDate then y else s).startDate := by
      split <;> simp_all [le_of_lt]
    have hy : y.startDate ≤ (if s.startDate < y.startDate then y else s).startDate := by
      split <;> simp_all [le_of_not_lt]
    refine ⟨?_, ?_, ?_⟩
    · rw [List.foldl_cons]
      rcases List.mem_cons.mp hmem with hres | hres
      · rw [hres]
        split <;> simp
      · simp [List.mem_cons, hres]
    · rw [List.foldl_cons]
      exact le_trans hs hge
    · intro x hx
      rw [List.foldl_cons]
      rcases List.mem_cons.mp hx with rfl | hx2
      · exact le_trans hy hge
      · exact hall x hx2

/-- C10, counterexample.  With `days_advanced = 50` and two
subscriptions listed oldest-first ([start 0, expire day 100] then
[start day 100, expire day 200]), the implementation reads its
"original start date" from the LAST element of the list (day 100) and
selects the second subscription, whereas the claim's rule — original
start = the EARLIEST start date in the list (day 0) — selects the
first; the two selections differ. -/
theorem C10_counterexample :
    0 < (50 : Int) ∧
    1 < (GetSubscriptionsResponse.mk true
      [⟨1, 2, 1, 100, none, 0, 8640000⟩,
       ⟨2, 2, 1, 100, none, 8640000, 17280000⟩]).subscriptions.length ∧
    selectSubscriptionAtSimulatedTime
      (GetSubscriptionsResponse.mk true
        [⟨1, 2, 1, 100, none, 0, 8640000⟩,
         ⟨2, 2, 1, 100, none, 8640000, 17280000⟩]) 50 ≠
    specSelectAtSimulatedTime
      (GetSubscriptionsResponse.mk true
        [⟨1, 2, 1, 100, none, 0, 8640000⟩,
         ⟨2, 2, 1, 100, none, 8640000, 17280000⟩]) 50 := by
  decide

/-- C10, amended.  When `days_advanced > 0` and the list holds more than
one subscription, the selection takes its reference start date from the
LAST subscription in the returned list (which the code assumes to be the
oldest, the API listing newest first), picks the first subscription in
list order whose `[startDate, expireDate]` interval contains reference
start + `days_advanced` days, and when no interval contains that instant
falls back to `get_latest_subscription` — which indeed returns a listed
subscription whose start date is maximal (the most recently started
one). -/
theorem C10_selection (r : GetSubscriptionsResponse) (days : Int)
    (orig : ApiSubscription) (h1 : 0 < days)
    (h2 : 1 < r.subscriptions.length)
    (h3 : r.subscriptions.getLast? = some orig) :
    selectSubscriptionAtSimulatedTime r days =
      (match r.subscriptions.find? (fun s =>
          decide (s.startDate ≤ addDays orig.startDate days) &&
          decide (addDays orig.startDate days ≤ s.expireDate)) with
       | some sub => some sub
       | none => get_latest_subscription r.subscriptions) ∧
    ∃ l, get_latest_subscription r.subscriptions = some l ∧
      l ∈ r.subscriptions ∧
      ∀ x ∈ r.subscriptions, x.startDate ≤ l.startDate := by
  constructor
  · have hd0 : ¬ (days = 0) := by omega
    have hl1 : ¬ (r.subscriptions.length = 1) := by omega
    simp [selectSubscriptionAtSimulatedTime, hd0, hl1, h3]
  · rcases hls : r.subscriptions with _ | ⟨s, rest⟩
    · rw [hls] at h2
      simp at h2
    · obtain ⟨hmem, _, hall⟩ := latest_fold_spec s rest
      refine ⟨_, rfl, hmem, ?_⟩
      intro x hx
      rcases List.mem_cons.mp hx with rfl | hx2
      · exact (latest_fold_spec x rest).2.1
      · exact hall x hx2

/-- C10 witness for the amended theorem, at the two-subscription list of
the counterexample. -/
theorem C10_selection_witness :
    (selectSubscriptionAtSimulatedTime
      (GetSubscriptionsResponse.mk true
        [⟨1, 2, 1, 100, none, 0, 8640000⟩,
         ⟨2, 2, 1, 100, none, 8640000, 17280000⟩]) 50 =
      (match (GetSubscriptionsResponse.mk true
          [⟨1, 2, 1, 100, none, 0, 8640000⟩,
           ⟨2, 2, 1, 100, none, 8640000, 17280000⟩]).subscriptions.find?
          (fun s =>
            decide (s.startDate ≤
              addDays (ApiSubscription.mk 2 2 1 100 none 8640000 17280000).startDate 50) &&
            decide (addDays (ApiSubscription.mk 2 2 1 100 none 8640000 17280000).startDate 50 ≤
              s.expireDate)) with
       | some sub => some sub
       | none => get_latest_subscription (GetSubscriptionsResponse.mk true
          [⟨1, 2, 1, 100, none, 0, 8640000⟩,
           ⟨2, 2, 1, 100, none, 8640000, 17280000⟩]).subscriptions)) ∧
    ∃ l, get_latest_subscription (GetSubscriptionsResponse.mk true
        [⟨1, 2, 1, 100, none, 0, 8640000⟩,
         ⟨2, 2, 1, 100, none, 8640000, 17280000⟩]).subscriptions = some l ∧
      l ∈ (GetSubscriptionsResponse.mk true
        [⟨1, 2, 1, 100, none, 0, 8640000⟩,
         ⟨2, 2, 1, 100, none, 8640000, 17280000⟩]).subscriptions ∧
      ∀ x ∈ (GetSubscriptionsResponse.mk true
        [⟨1, 2, 1, 100, none, 0, 8640000⟩,
         ⟨2, 2, 1, 100, none, 8640000, 17280000⟩]).subscriptions,
        x.startDate ≤ l.startDate :=
  C10_selection
    (GetSubscriptionsResponse.mk true
      [⟨1, 2, 1, 100, none, 0, 8640000⟩,
       ⟨2, 2, 1, 100, none, 8640000, 17280000⟩]) 50
    (ApiSubscription.mk 2 2 1 100 none 8640000 17280000)
    (by decide) (by decide) (by decide)

end Subscription
